import Mathlib

/-!
Verification development for the slack-processor alerting engine
(`src/slack_processor/application.py`).

The engine is embedded shallowly:

* Timestamps are rationals (seconds since an arbitrary epoch); the Python
  code's `total_seconds() / 60` becomes exact division by 60 in `ℚ`.
* The persisted per-device key/value tag store (`get_tag` / `set_tag`) is the
  `Store` structure: the offline-tracking tags are explicit fields, the
  per-tag threshold cooldown tags and the statistics counters are association
  lists.  A value of `none` models an absent (or Python-falsy `None`) tag.
* The external lookups (`get_agent_connection`, the `tag_values` aggregate,
  the device name) are parameters; a failing lookup is `none` (the code
  catches the exception and returns).
* Sending to Slack is modelled by emitting an `Alert` decision; HTTP
  delivery is outside the engine.
* A Python exception that the code does NOT catch (notably `KeyError` from
  `str.format` on an unknown placeholder) is modelled by the `Option String`
  error component of a result: `some e` means the exception `e` propagates
  out of the handler, aborting everything after the raise point.
* The truthiness tests `if last_online:` / `if last_reminder:` /
  `if last_alert:` are modelled as presence of the optional timestamp.  The
  stored reminder and cooldown values are ISO strings the engine itself
  wrote (truthy whenever present); `online_at` can in principle be the
  Python-falsy epoch number 0, but with a threshold of at most 1440 minutes
  a real current time is always past the threshold for that timestamp, so
  the branch taken agrees with this model on reachable inputs.
-/

/-- A raw value read from the `tag_values` aggregate.  `float(value)` in the
Python loop either succeeds, yielding a rational, or raises
`TypeError`/`ValueError`; the dynamic typing is abstracted into the two
constructors. -/
inductive TagValue where
  | number (q : ℚ)
  | nonNumber
deriving DecidableEq

/-- Result of `float(value)`: `some q` when the value parses as a number. -/
def TagValue.float? : TagValue → Option ℚ
  | number q => some q
  | nonNumber => none

/-- One entry of the `tag_thresholds` config array, after the `.get` calls
with their defaults (application.py lines 185-203). -/
structure ThresholdRule where
  tag_name : String
  upper_limit : Option ℚ
  lower_limit : Option ℚ
  alert_message : String
  cooldown_minutes : ℚ
deriving DecidableEq

/-- The configuration fields of `SlackProcessorConfig` that the decision
logic reads. -/
structure AppConfig where
  slack_webhook_url : String
  channel_alerts_enabled : Bool
  channel_message_template : String
  offline_alerts_enabled : Bool
  offline_threshold_minutes : ℚ
  offline_reminder_interval_minutes : ℚ
  threshold_alerts_enabled : Bool
  tag_thresholds : List ThresholdRule
deriving DecidableEq

/-- Result of `self.api.get_agent_connection(...)`: the `online_at`
timestamp (possibly absent) and the `determination` string. -/
structure ConnInfo where
  online_at : Option ℚ
  determination : String
deriving DecidableEq

/-- A fully formatted notification decision handed to the Slack webhook:
the arguments of `_send_slack_message`. -/
structure Alert where
  text : String
  title : String
  color : String
deriving DecidableEq

/-- The persisted per-device tag store, restricted to the keys the engine
reads or writes.  `cooldowns` maps a `threshold_cooldown_<tag>` key to the
stored timestamp; `stats` and `stat_last` hold the `_increment_stat`
counters and their `<name>_last` companions. -/
structure Store where
  offline_alert_sent : Option Bool
  last_offline_reminder : Option ℚ
  cooldowns : List (String × ℚ)
  stats : List (String × Nat)
  stat_last : List (String × ℚ)
deriving DecidableEq

/-- Lookup in an association list (first binding wins), the shape of
`dict.get` on the modelled stores. -/
def lookupA {α : Type} : List (String × α) → String → Option α
  | [], _ => none
  | (k1, v) :: rest, k => if k1 = k then some v else lookupA rest k

/-- Overwrite a key in an association list, the shape of `set_tag`. -/
def setA {α : Type} (l : List (String × α)) (k : String) (v : α) :
    List (String × α) :=
  (k, v) :: l.filter (fun p => p.1 ≠ k)

/-- Embeds `_increment_stat` (application.py lines 313-320): read the
counter with default 0, write it back incremented, and stamp
`<name>_last` with the current time. -/
def bumpStat (st : Store) (name : String) (now : ℚ) : Store :=
  { st with
    stats := setA st.stats name ((lookupA st.stats name).getD 0 + 1),
    stat_last := setA st.stat_last name now }

/-- Opening brace character, written via its code point. -/
def braceL : Char := Char.ofNat 123

/-- Closing brace character, written via its code point. -/
def braceR : Char := Char.ofNat 125

/-- Character-level worker for `formatTemplate`.  The second argument is
`none` outside a placeholder and `some acc` while accumulating a
placeholder name between braces.  An unknown placeholder name raises
`KeyError`, as Python's `str.format` does. -/
def fmtGo (env : List (String × String)) :
    List Char → Option String → Except String String
  | [], none => Except.ok ""
  | [], some _ => Except.error "ValueError: unmatched brace in template"
  | c :: rest, none =>
    if c = braceL then fmtGo env rest (some "")
    else
      match fmtGo env rest none with
      | Except.ok s => Except.ok (String.singleton c ++ s)
      | Except.error e => Except.error e
  | c :: rest, some name =>
    if c = braceR then
      match lookupA env name with
      | some v =>
        match fmtGo env rest none with
        | Except.ok s => Except.ok (v ++ s)
        | Except.error e => Except.error e
      | none => Except.error ("KeyError: " ++ name)
    else fmtGo env rest (some (name.push c))

/-- Embeds Python's `template.format(**env)` for the simple-name
placeholders the engine uses: substitute each `\x7bname\x7d` from `env`,
failing with a `KeyError` when the template references a name absent from
`env`. -/
def formatTemplate (tpl : String) (env : List (String × String)) :
    Except String String :=
  fmtGo env tpl.toList none

/-- Python `int()` applied to a rational: truncation toward zero. -/
def pyInt (q : ℚ) : Int := if 0 ≤ q then ⌊q⌋ else ⌈q⌉

/-- Rendering of a configured limit number inside the f-strings
`f">\x7bupper_limit\x7d"` / `f"<\x7blower_limit\x7d"`: an integral number
prints without a fractional part. -/
def pyNumStr (q : ℚ) : String :=
  if q.den = 1 then toString q.num else toString q

/-- Rendering of the parsed tag value (always a Python `float` after
`float(value)`): an integral float prints with a trailing `.0`. -/
def pyFloatStr (q : ℚ) : String :=
  if q.den = 1 then toString q.num ++ ".0" else toString q

/-- The `duration: N minutes` fragment of the reminder message
(application.py line 151): the truncated offline minutes when `last_online`
is available, `"unknown"` otherwise. -/
def offlineMinsStr (last_online : Option ℚ) (now : ℚ) : String :=
  match last_online with
  | some t => toString (pyInt ((now - t) / 60))
  | none => "unknown"

/-- The `should_send` tail of `_check_offline_status` (application.py lines
154-162): emit the alert, set `offline_alert_sent := true`, stamp
`last_offline_reminder := now`, and bump the `offline_alerts_sent` stat. -/
def fireOffline (message : String) (now : ℚ) (st : Store) :
    Store × List Alert :=
  (bumpStat
      { st with offline_alert_sent := some true,
                last_offline_reminder := some now }
      "offline_alerts_sent" now,
   [⟨message, "Device Offline Alert", "#ff0000"⟩])

/-- Embeds the alert-state evaluation of `_check_offline_status`
(application.py lines 130-162), reached once the device is offline and past
the debounce threshold: first alert when `offline_alert_sent` is not set,
otherwise a reminder exactly when the reminder interval is positive, a
previous reminder timestamp exists, and at least the interval has elapsed
since it. -/
def offlineAlertStep (cfg : AppConfig) (last_online : Option ℚ) (now : ℚ)
    (device_name : String) (st : Store) : Store × List Alert :=
  if st.offline_alert_sent.getD false then
    if 0 < cfg.offline_reminder_interval_minutes then
      match st.last_offline_reminder with
      | some lr =>
        if cfg.offline_reminder_interval_minutes ≤ (now - lr) / 60 then
          fireOffline
            ("Device *" ++ device_name ++ "* is still offline (duration: " ++
              offlineMinsStr last_online now ++ " minutes)")
            now st
        else (st, [])
      | none => (st, [])
    else (st, [])
  else
    fireOffline ("Device *" ++ device_name ++ "* has gone offline") now st

/-- Embeds `_check_offline_status` (application.py lines 96-162).  `conn`
is the `get_agent_connection` result, `none` when the lookup raised (the
code logs and returns).  When online, the offline-tracking tags are reset
unconditionally.  When offline with a known `online_at`, the debounce
window suppresses everything while the elapsed minutes are below the
configured threshold. -/
def checkOfflineStatus (cfg : AppConfig) (conn : Option ConnInfo) (now : ℚ)
    (device_name : String) (st : Store) : Store × List Alert :=
  match conn with
  | none => (st, [])
  | some info =>
    if info.determination = "online" then
      ({ st with offline_alert_sent := some false,
                 last_offline_reminder := none }, [])
    else
      match info.online_at with
      | some t =>
        if (now - t) / 60 < cfg.offline_threshold_minutes then (st, [])
        else offlineAlertStep cfg (some t) now device_name st
      | none => offlineAlertStep cfg none now device_name st

/-- A result of a threshold step or a handler: the post store, the emitted
alert decisions, and `some e` when an uncaught Python exception `e`
propagates (everything after the raise point is skipped, effects before it
stand). -/
abbrev StepResult := Store × List Alert × Option String

/-- The lower-limit check of the threshold loop (application.py lines
235-249), reached only when the upper limit did not fire: format, emit a
"Low Value" decision, write the cooldown tag and bump the stat.  A format
`KeyError` raises before any send or write. -/
def lowerCheck (now : ℚ) (device_name : String) (rule : ThresholdRule)
    (value : ℚ) (st : Store) : StepResult :=
  match rule.lower_limit with
  | some l =>
    if value < l then
      match formatTemplate rule.alert_message
          [("tag", rule.tag_name), ("value", pyFloatStr value),
           ("limit", "<" ++ pyNumStr l), ("device", device_name)] with
      | Except.error e => (st, [], some e)
      | Except.ok message =>
        (bumpStat
            { st with cooldowns := (setA st.cooldowns
                ("threshold_cooldown_" ++ rule.tag_name) now) }
            "threshold_alerts_sent" now,
         [⟨message, "Threshold Alert: Low Value", "#0066ff"⟩], none)
    else (st, [], none)
  | none => (st, [], none)

/-- The limit checks of the threshold loop (application.py lines 218-249):
upper limit first; when it fires, the rule `continue`s and the lower limit
is never evaluated on this tick. -/
def checkLimits (now : ℚ) (device_name : String) (rule : ThresholdRule)
    (value : ℚ) (st : Store) : StepResult :=
  match rule.upper_limit with
  | some u =>
    if u < value then
      match formatTemplate rule.alert_message
          [("tag", rule.tag_name), ("value", pyFloatStr value),
           ("limit", ">" ++ pyNumStr u), ("device", device_name)] with
      | Except.error e => (st, [], some e)
      | Except.ok message =>
        (bumpStat
            { st with cooldowns := (setA st.cooldowns
                ("threshold_cooldown_" ++ rule.tag_name) now) }
            "threshold_alerts_sent" now,
         [⟨message, "Threshold Alert: High Value", "#ff9900"⟩], none)
    else lowerCheck now device_name rule value st
  | none => lowerCheck now device_name rule value st

/-- One iteration of the threshold loop (application.py lines 184-249):
silently skip when the tag name is empty, the tag is absent from the
aggregate, the value does not parse as a number, or the per-tag cooldown
window is still open; otherwise run the limit checks. -/
def processRule (now : ℚ) (device_name : String)
    (tag_values : List (String × TagValue)) (rule : ThresholdRule)
    (st : Store) : StepResult :=
  if rule.tag_name = "" then (st, [], none)
  else
    match lookupA tag_values rule.tag_name with
    | none => (st, [], none)
    | some raw =>
      match raw.float? with
      | none => (st, [], none)
      | some value =>
        match lookupA st.cooldowns ("threshold_cooldown_" ++ rule.tag_name) with
        | some last_alert =>
          if (now - last_alert) / 60 < rule.cooldown_minutes then (st, [], none)
          else checkLimits now device_name rule value st
        | none => checkLimits now device_name rule value st

/-- The threshold loop over the configured rules, threading the store.  An
uncaught exception in one iteration aborts the remaining rules (the Python
`for` body has no try/except). -/
def checkRules (now : ℚ) (device_name : String)
    (tag_values : List (String × TagValue)) :
    List ThresholdRule → Store → StepResult
  | [], st => (st, [], none)
  | r :: rs, st =>
    match processRule now device_name tag_values r st with
    | (st1, as1, some e) => (st1, as1, some e)
    | (st1, as1, none) =>
      match checkRules now device_name tag_values rs st1 with
      | (st2, as2, e2) => (st2, as1 ++ as2, e2)

/-- Embeds `_check_tag_thresholds` (application.py lines 164-249).
`tag_values` is the `tag_values` channel aggregate, `none` when the fetch
raised (the code logs and returns). -/
def checkTagThresholds (cfg : AppConfig)
    (tag_values : Option (List (String × TagValue))) (now : ℚ)
    (device_name : String) (st : Store) : StepResult :=
  if cfg.tag_thresholds = [] then (st, [], none)
  else
    match tag_values with
    | none => (st, [], none)
    | some tv => checkRules now device_name tv cfg.tag_thresholds st

/-- Embeds `on_schedule` (application.py lines 79-94): skip everything when
no webhook URL is configured, otherwise run the offline check and then the
threshold check, each behind its enable flag. -/
def on_schedule (cfg : AppConfig) (conn : Option ConnInfo)
    (tag_values : Option (List (String × TagValue))) (now : ℚ)
    (device_name : String) (st : Store) : StepResult :=
  if cfg.slack_webhook_url = "" then (st, [], none)
  else
    let p1 :=
      if cfg.offline_alerts_enabled then
        checkOfflineStatus cfg conn now device_name st
      else (st, [])
    if cfg.threshold_alerts_enabled then
      match checkTagThresholds cfg tag_values now device_name p1.1 with
      | (st2, as2, e2) => (st2, p1.2 ++ as2, e2)
    else (p1.1, p1.2, none)

/-- Embeds `on_message_create` (application.py lines 38-77).  `data_str` is
the serialized message payload (the `json.dumps` / `str` step, which cannot
fail, is abstracted as an input).  The `template.format` call is not
wrapped in a try/except: a `KeyError` propagates out of the handler. -/
def on_message_create (cfg : AppConfig) (channel_name : String)
    (data_str : String) (device_name : String) (now : ℚ) (st : Store) :
    StepResult :=
  if cfg.channel_alerts_enabled = false then (st, [], none)
  else if cfg.slack_webhook_url = "" then (st, [], none)
  else
    match formatTemplate cfg.channel_message_template
        [("channel", channel_name), ("data", data_str),
         ("device", device_name)] with
    | Except.error e => (st, [], some e)
    | Except.ok message =>
      (bumpStat st "channel_alerts_sent" now,
       [⟨message, "Channel Alert: " ++ channel_name, "#36a64f"⟩], none)

/-- Looking up the key just written by `setA` returns the new value. -/
theorem lookupA_setA_self {α : Type} (l : List (String × α)) (k : String)
    (v : α) : lookupA (setA l k v) k = some v := by
  simp [lookupA, setA]

/-- `bumpStat` touches only the statistics fields of the store. -/
theorem bumpStat_fields (st : Store) (n : String) (now : ℚ) :
    (bumpStat st n now).offline_alert_sent = st.offline_alert_sent ∧
    (bumpStat st n now).last_offline_reminder = st.last_offline_reminder ∧
    (bumpStat st n now).cooldowns = st.cooldowns := by
  simp [bumpStat]

/-- The lower-limit check leaves the offline-tracking tags untouched and
only ever emits "Low Value" decisions. -/
theorem lowerCheck_frame (now : ℚ) (dev : String) (r : ThresholdRule)
    (v : ℚ) (st : Store) :
    (lowerCheck now dev r v st).1.offline_alert_sent = st.offline_alert_sent ∧
    (lowerCheck now dev r v st).1.last_offline_reminder =
      st.last_offline_reminder ∧
    ∀ a ∈ (lowerCheck now dev r v st).2.1,
      a.title = "Threshold Alert: Low Value" := by
  unfold lowerCheck
  repeat' split
  all_goals simp [bumpStat]

/-- The limit checks leave the offline-tracking tags untouched and only
ever emit threshold-titled decisions. -/
theorem checkLimits_frame (now : ℚ) (dev : String) (r : ThresholdRule)
    (v : ℚ) (st : Store) :
    (checkLimits now dev r v st).1.offline_alert_sent =
      st.offline_alert_sent ∧
    (checkLimits now dev r v st).1.last_offline_reminder =
      st.last_offline_reminder ∧
    ∀ a ∈ (checkLimits now dev r v st).2.1,
      a.title = "Threshold Alert: High Value" ∨
      a.title = "Threshold Alert: Low Value" := by
  have h := lowerCheck_frame now dev r v st
  unfold checkLimits
  repeat' split
  all_goals first
    | simp [bumpStat]
    | exact ⟨h.1, h.2.1, fun a ha => Or.inr (h.2.2 a ha)⟩

/-- One threshold-loop iteration leaves the offline-tracking tags untouched
and only ever emits threshold-titled decisions. -/
theorem processRule_frame (now : ℚ) (dev : String)
    (tv : List (String × TagValue)) (r : ThresholdRule) (st : Store) :
    (processRule now dev tv r st).1.offline_alert_sent =
      st.offline_alert_sent ∧
    (processRule now dev tv r st).1.last_offline_reminder =
      st.last_offline_reminder ∧
    ∀ a ∈ (processRule now dev tv r st).2.1,
      a.title = "Threshold Alert: High Value" ∨
      a.title = "Threshold Alert: Low Value" := by
  unfold processRule
  repeat' split
  all_goals first
    | simp
    | exact checkLimits_frame now dev r _ st

/-- The threshold loop leaves the offline-tracking tags untouched and only
ever emits threshold-titled decisions. -/
theorem checkRules_frame (now : ℚ) (dev : String)
    (tv : List (String × TagValue)) :
    ∀ (rules : List ThresholdRule) (st : Store),
      (checkRules now dev tv rules st).1.offline_alert_sent =
        st.offline_alert_sent ∧
      (checkRules now dev tv rules st).1.last_offline_reminder =
        st.last_offline_reminder ∧
      ∀ a ∈ (checkRules now dev tv rules st).2.1,
        a.title = "Threshold Alert: High Value" ∨
        a.title = "Threshold Alert: Low Value"
  | [], st => by simp [checkRules]
  | r :: rs, st => by
    have hp := processRule_frame now dev tv r st
    have ih := checkRules_frame now dev tv rs
    unfold checkRules
    rcases hpr : processRule now dev tv r st with ⟨st1, as1, e⟩
    rw [hpr] at hp
    rcases e with _ | e
    · have ih1 := ih st1
      dsimp only
      rcases hcr : checkRules now dev tv rs st1 with ⟨st2, as2, e2⟩
      rw [hcr] at ih1
      simp only at hp ih1 ⊢
      refine ⟨ih1.1.trans hp.1, ih1.2.1.trans hp.2.1, ?_⟩
      intro a ha
      rcases List.mem_append.mp ha with h1 | h2
      · exact hp.2.2 a h1
      · exact ih1.2.2 a h2
    · simpa using hp

/-- `_check_tag_thresholds` leaves the offline-tracking tags untouched and
only ever emits threshold-titled decisions. -/
theorem checkTagThresholds_frame (cfg : AppConfig)
    (tv : Option (List (String × TagValue))) (now : ℚ) (dev : String)
    (st : Store) :
    (checkTagThresholds cfg tv now dev st).1.offline_alert_sent =
      st.offline_alert_sent ∧
    (checkTagThresholds cfg tv now dev st).1.last_offline_reminder =
      st.last_offline_reminder ∧
    ∀ a ∈ (checkTagThresholds cfg tv now dev st).2.1,
      a.title = "Threshold Alert: High Value" ∨
      a.title = "Threshold Alert: Low Value" := by
  unfold checkTagThresholds
  repeat' split
  all_goals first
    | simp
    | exact checkRules_frame now dev _ cfg.tag_thresholds st

/-- An empty tag store, for concrete instantiations. -/
def store0 : Store := ⟨none, none, [], [], []⟩

/-- A store with a stale offline flag and reminder timestamp set. -/
def storeStale : Store := ⟨some true, some 5, [], [], []⟩

/-- A sample configuration with the repository defaults for the templates
and timing parameters. -/
def cfg0 : AppConfig :=
  { slack_webhook_url := "https://hooks.slack.example/T000/B000",
    channel_alerts_enabled := true,
    channel_message_template := "New message on {channel} from {device}: {data}",
    offline_alerts_enabled := true,
    offline_threshold_minutes := 30,
    offline_reminder_interval_minutes := 60,
    threshold_alerts_enabled := false,
    tag_thresholds := [] }

/-- Claim C1: on every schedule tick on which the offline check runs and
the connection lookup reports `determination == "online"`, after the tick
the persisted `offline_alert_sent` tag is false and `last_offline_reminder`
is cleared, regardless of their prior values, and no offline alert is
emitted on that tick. -/
theorem C1_online_reset (cfg : AppConfig) (info : ConnInfo)
    (tv : Option (List (String × TagValue))) (now : ℚ) (dev : String)
    (st : Store)
    (hw : cfg.slack_webhook_url ≠ "")
    (hen : cfg.offline_alerts_enabled = true)
    (hdet : info.determination = "online") :
    (on_schedule cfg (some info) tv now dev st).1.offline_alert_sent =
      some false ∧
    (on_schedule cfg (some info) tv now dev st).1.last_offline_reminder =
      none ∧
    ∀ a ∈ (on_schedule cfg (some info) tv now dev st).2.1,
      a.title ≠ "Device Offline Alert" := by
  have hw' : ¬cfg.slack_webhook_url = "" := hw
  have hco : checkOfflineStatus cfg (some info) now dev st =
      ({ st with offline_alert_sent := some false,
                 last_offline_reminder := none }, []) := by
    simp [checkOfflineStatus, hdet]
  cases hthr : cfg.threshold_alerts_enabled
  · simp [on_schedule, hw', hen, hco, hthr]
  · simp only [on_schedule, if_neg hw', hen, if_true, hthr, hco]
    have hf := checkTagThresholds_frame cfg tv now dev
      { st with offline_alert_sent := some false,
                last_offline_reminder := none }
    rcases hct : checkTagThresholds cfg tv now dev
        { st with offline_alert_sent := some false,
                  last_offline_reminder := none } with ⟨st2, as2, e2⟩
    rw [hct] at hf
    simp only at hf ⊢
    refine ⟨by simpa using hf.1, by simpa using hf.2.1, ?_⟩
    intro a ha
    rcases hf.2.2 a (by simpa using ha) with h | h <;> rw [h] <;> decide

/-- Witness for C1 at a concrete tick: stale offline flag and reminder,
device reported online. -/
theorem C1_online_reset_witness :
    (on_schedule cfg0 (some ⟨some 0, "online"⟩) none 3600 "dev"
        storeStale).1.offline_alert_sent = some false ∧
    (on_schedule cfg0 (some ⟨some 0, "online"⟩) none 3600 "dev"
        storeStale).1.last_offline_reminder = none ∧
    ∀ a ∈ (on_schedule cfg0 (some ⟨some 0, "online"⟩) none 3600 "dev"
        storeStale).2.1, a.title ≠ "Device Offline Alert" :=
  C1_online_reset cfg0 ⟨some 0, "online"⟩ none 3600 "dev" storeStale
    (by decide) rfl rfl

/-- Claim C3: on every schedule tick on which the device is offline with a
known last-online timestamp and the elapsed offline minutes are strictly
below `offline_threshold_minutes`, no offline alert is emitted and the
store is not written. -/
theorem C3_debounce_silent (cfg : AppConfig) (info : ConnInfo) (t now : ℚ)
    (dev : String) (st : Store)
    (hdet : info.determination ≠ "online")
    (ht : info.online_at = some t)
    (hlt : (now - t) / 60 < cfg.offline_threshold_minutes) :
    checkOfflineStatus cfg (some info) now dev st = (st, []) := by
  simp [checkOfflineStatus, hdet, ht, hlt]

/-- Witness for C3: offline for 29 minutes against a 30-minute threshold. -/
theorem C3_debounce_silent_witness :
    checkOfflineStatus cfg0 (some ⟨some 0, "offline"⟩) 1740 "dev" store0 =
      (store0, []) :=
  C3_debounce_silent cfg0 ⟨some 0, "offline"⟩ 0 1740 "dev" store0
    (by decide) rfl (by norm_num [cfg0])

/-- Claim C9: on every schedule tick on which the connection-status lookup
fails, the offline check emits no alert and performs no store mutation, and
the failure does not propagate (the check merely returns). -/
theorem C9_lookup_failure_noop (cfg : AppConfig) (now : ℚ) (dev : String)
    (st : Store) : checkOfflineStatus cfg none now dev st = (st, []) := rfl

/-- Claim C10: on every schedule tick on which the webhook URL is empty,
`on_schedule` returns before running either check: the store is untouched
(in particular the online reset is not performed), no alert is emitted, and
no error propagates. -/
theorem C10_webhook_unset_skips_tick (cfg : AppConfig)
    (conn : Option ConnInfo) (tv : Option (List (String × TagValue)))
    (now : ℚ) (dev : String) (st : Store)
    (hw : cfg.slack_webhook_url = "") :
    on_schedule cfg conn tv now dev st = (st, [], none) := by
  simp [on_schedule, hw]

/-- Witness for C10: webhook unset while the device is online with a stale
offline flag; the tick changes nothing. -/
theorem C10_webhook_unset_skips_tick_witness :
    on_schedule { cfg0 with slack_webhook_url := "" }
        (some ⟨some 0, "online"⟩) none 3600 "dev" storeStale =
      (storeStale, [], none) :=
  C10_webhook_unset_skips_tick { cfg0 with slack_webhook_url := "" }
    (some ⟨some 0, "online"⟩) none 3600 "dev" storeStale rfl

/-- Claim C4: on every schedule tick on which the device is offline past the
threshold and `offline_alert_sent` is not set, exactly one "has gone
offline" alert is emitted, and afterwards `offline_alert_sent` is true and
`last_offline_reminder` holds the current time (the store change is exactly
those two writes plus the `offline_alerts_sent` statistics bump). -/
theorem C4_first_offline_alert (cfg : AppConfig) (info : ConnInfo)
    (t now : ℚ) (dev : String) (st : Store)
    (hdet : info.determination ≠ "online")
    (ht : info.online_at = some t)
    (hge : ¬((now - t) / 60 < cfg.offline_threshold_minutes))
    (hsent : st.offline_alert_sent.getD false = false) :
    checkOfflineStatus cfg (some info) now dev st =
      (bumpStat
          { st with offline_alert_sent := some true,
                    last_offline_reminder := some now }
          "offline_alerts_sent" now,
       [⟨"Device *" ++ dev ++ "* has gone offline",
         "Device Offline Alert", "#ff0000"⟩]) := by
  simp [checkOfflineStatus, hdet, ht, hge, offlineAlertStep, hsent,
    fireOffline]

/-- Witness for C4: 30-minute threshold, device offline for 31 minutes, no
alert sent yet. -/
theorem C4_first_offline_alert_witness :
    checkOfflineStatus cfg0 (some ⟨some 0, "offline"⟩) 1860 "dev" store0 =
      (bumpStat
          { store0 with offline_alert_sent := some true,
                        last_offline_reminder := some 1860 }
          "offline_alerts_sent" 1860,
       [⟨"Device *dev* has gone offline", "Device Offline Alert",
         "#ff0000"⟩]) :=
  C4_first_offline_alert cfg0 ⟨some 0, "offline"⟩ 0 1860 "dev" store0
    (by decide) rfl (by norm_num [cfg0]) rfl

/-- Claim C5: past the threshold with the initial alert already sent, a
reminder alert is emitted if and only if the reminder interval is positive,
a last-reminder timestamp is persisted, and at least the interval has
elapsed since it; in particular with interval 0 the tick does nothing. -/
theorem C5_reminder_iff (cfg : AppConfig) (info : ConnInfo) (now : ℚ)
    (dev : String) (st : Store)
    (hdet : info.determination ≠ "online")
    (hpast : ∀ t, info.online_at = some t →
      ¬((now - t) / 60 < cfg.offline_threshold_minutes))
    (hsent : st.offline_alert_sent.getD false = true) :
    ((checkOfflineStatus cfg (some info) now dev st).2 ≠ [] ↔
      (0 < cfg.offline_reminder_interval_minutes ∧
       ∃ lr, st.last_offline_reminder = some lr ∧
         cfg.offline_reminder_interval_minutes ≤ (now - lr) / 60)) ∧
    (cfg.offline_reminder_interval_minutes = 0 →
      checkOfflineStatus cfg (some info) now dev st = (st, [])) := by
  have hstep : checkOfflineStatus cfg (some info) now dev st =
      offlineAlertStep cfg info.online_at now dev st := by
    rcases honl : info.online_at with _ | t
    · simp [checkOfflineStatus, hdet, honl]
    · simp [checkOfflineStatus, hdet, honl, hpast t honl]
  rw [hstep]
  unfold offlineAlertStep
  rw [hsent]
  simp only [if_true]
  constructor
  · by_cases hri : 0 < cfg.offline_reminder_interval_minutes
    · simp only [if_pos hri]
      rcases hlr : st.last_offline_reminder with _ | lr
      · simp [hri]
      · by_cases hdue : cfg.offline_reminder_interval_minutes ≤ (now - lr) / 60
        · simp [hdue, hri, fireOffline]
        · simp [hdue, hri]
    · simp [if_neg hri, hri]
  · intro h0
    have : ¬(0 < cfg.offline_reminder_interval_minutes) := by
      rw [h0]; exact lt_irrefl 0
    simp [if_neg this]

/-- Witness for C5: alert already sent, reminder due (65 minutes since the
last reminder against a 60-minute interval). -/
theorem C5_reminder_iff_witness :
    ((checkOfflineStatus cfg0 (some ⟨some 0, "offline"⟩) 3905 "dev"
        storeStale).2 ≠ [] ↔
      (0 < cfg0.offline_reminder_interval_minutes ∧
       ∃ lr, storeStale.last_offline_reminder = some lr ∧
         cfg0.offline_reminder_interval_minutes ≤ (3905 - lr) / 60)) ∧
    (cfg0.offline_reminder_interval_minutes = 0 →
      checkOfflineStatus cfg0 (some ⟨some 0, "offline"⟩) 3905 "dev"
        storeStale = (storeStale, [])) :=
  C5_reminder_iff cfg0 ⟨some 0, "offline"⟩ 3905 "dev" storeStale
    (by decide)
    (fun t ht => by injection ht with h; subst h; norm_num [cfg0])
    rfl

/-- Claim C6: for a rule with a numeric tag value not in cooldown, when the
upper limit is set and exceeded, exactly one "High Value" decision is
emitted with the limit rendered as ">limit", the per-tag cooldown timestamp
is written to the current time, and the lower-limit check is not evaluated
on that tick: the result does not depend on `lower_limit` at all (the
statement constrains it nowhere, so it holds even when `value <
lower_limit` also holds). -/
theorem C6_upper_limit_priority (now : ℚ) (dev : String)
    (tv : List (String × TagValue)) (r : ThresholdRule) (raw : TagValue)
    (v u : ℚ) (msg : String) (st : Store)
    (hname : r.tag_name ≠ "")
    (hlook : lookupA tv r.tag_name = some raw)
    (hfloat : raw.float? = some v)
    (hcd : ∀ la, lookupA st.cooldowns ("threshold_cooldown_" ++ r.tag_name) =
      some la → ¬((now - la) / 60 < r.cooldown_minutes))
    (hu : r.upper_limit = some u)
    (hv : u < v)
    (hfmt : formatTemplate r.alert_message
        [("tag", r.tag_name), ("value", pyFloatStr v),
         ("limit", ">" ++ pyNumStr u), ("device", dev)] = Except.ok msg) :
    processRule now dev tv r st =
      (bumpStat
          { st with cooldowns := (setA st.cooldowns
              ("threshold_cooldown_" ++ r.tag_name) now) }
          "threshold_alerts_sent" now,
       [⟨msg, "Threshold Alert: High Value", "#ff9900"⟩], none) := by
  unfold processRule
  rw [if_neg hname, hlook]
  simp only [hfloat]
  have hlim : checkLimits now dev r v st =
      (bumpStat
          { st with cooldowns := (setA st.cooldowns
              ("threshold_cooldown_" ++ r.tag_name) now) }
          "threshold_alerts_sent" now,
       [⟨msg, "Threshold Alert: High Value", "#ff9900"⟩], none) := by
    unfold checkLimits
    rw [hu]
    simp only [if_pos hv, hfmt]
  rcases hcdl : lookupA st.cooldowns ("threshold_cooldown_" ++ r.tag_name)
      with _ | la
  · exact hlim
  · dsimp only
    rw [if_neg (hcd la hcdl)]
    exact hlim

/-- Witness for C6: `upper_limit = 100`, value `150`, and a lower limit of
200 that would also "match" under wrong logic; only the High Value decision
fires. -/
theorem C6_upper_limit_priority_witness :
    processRule 100 "dev" [("temp", TagValue.number 150)]
        ⟨"temp", some 100, some 200,
          "{tag} is {value} (threshold: {limit}) on {device}", 15⟩ store0 =
      (bumpStat
          { store0 with cooldowns := (setA store0.cooldowns
              ("threshold_cooldown_" ++ "temp") 100) }
          "threshold_alerts_sent" 100,
       [⟨"temp is 150.0 (threshold: >100) on dev",
         "Threshold Alert: High Value", "#ff9900"⟩], none) :=
  C6_upper_limit_priority 100 "dev" [("temp", TagValue.number 150)]
    ⟨"temp", some 100, some 200,
      "{tag} is {value} (threshold: {limit}) on {device}", 15⟩
    (TagValue.number 150) 150 100
    "temp is 150.0 (threshold: >100) on dev" store0
    (by decide) rfl rfl (fun la h => nomatch h) rfl (by norm_num) rfl

/-- Claim C8: a rule whose tag name is empty, whose tag is absent from the
current values, or whose value does not parse as a number is skipped
silently: no alert, no store write, no exception. -/
theorem C8_malformed_silent_skip (now : ℚ) (dev : String)
    (tv : List (String × TagValue)) (r : ThresholdRule) (st : Store)
    (h : r.tag_name = "" ∨ lookupA tv r.tag_name = none ∨
      ∃ raw, lookupA tv r.tag_name = some raw ∧ raw.float? = none) :
    processRule now dev tv r st = (st, [], none) := by
  unfold processRule
  by_cases hname : r.tag_name = ""
  · simp [hname]
  · rw [if_neg hname]
    rcases h with h | h | ⟨raw, hl, hf⟩
    · exact absurd h hname
    · rw [h]
    · rw [hl]
      simp only [hf]

/-- Witness for C8: a rule over a tag whose aggregate value is the
non-numeric string; nothing happens. -/
theorem C8_malformed_silent_skip_witness :
    processRule 0 "dev" [("temp", TagValue.nonNumber)]
        ⟨"temp", some 100, none,
          "{tag} is {value} (threshold: {limit}) on {device}", 15⟩ store0 =
      (store0, [], none) :=
  C8_malformed_silent_skip 0 "dev" [("temp", TagValue.nonNumber)]
    ⟨"temp", some 100, none,
      "{tag} is {value} (threshold: {limit}) on {device}", 15⟩ store0
    (Or.inr (Or.inr ⟨TagValue.nonNumber, rfl, rfl⟩))

/-- A single threshold-loop iteration emits at most one decision. -/
theorem processRule_len_le_one (now : ℚ) (dev : String)
    (tv : List (String × TagValue)) (r : ThresholdRule) (st : Store) :
    (processRule now dev tv r st).2.1.length ≤ 1 := by
  unfold processRule checkLimits lowerCheck
  repeat' split
  all_goals simp

/-- When an iteration emits a decision, the per-tag cooldown tag of the
resulting store holds the current time. -/
theorem processRule_fired_cooldown (now : ℚ) (dev : String)
    (tv : List (String × TagValue)) (r : ThresholdRule) (st st' : Store)
    (as : List Alert) (e : Option String)
    (hp : processRule now dev tv r st = (st', as, e))
    (h : as ≠ []) :
    lookupA st'.cooldowns ("threshold_cooldown_" ++ r.tag_name) =
      some now := by
  unfold processRule checkLimits lowerCheck at hp
  repeat' split at hp
  all_goals
    simp only [Prod.mk.injEq] at hp
    obtain ⟨h1, h2, h3⟩ := hp
    subst h1
    subst h2
    first
      | exact absurd rfl h
      | simp [bumpStat, lookupA_setA_self]

/-- A rule whose cooldown tag is present and younger than
`cooldown_minutes` is skipped entirely: no alert, no write, no error. -/
theorem processRule_cooldown_skip (now : ℚ) (dev : String)
    (tv : List (String × TagValue)) (r : ThresholdRule) (st : Store)
    (la : ℚ)
    (hla : lookupA st.cooldowns ("threshold_cooldown_" ++ r.tag_name) =
      some la)
    (hlt : (now - la) / 60 < r.cooldown_minutes) :
    processRule now dev tv r st = (st, [], none) := by
  unfold processRule
  by_cases hname : r.tag_name = ""
  · simp [hname]
  · rw [if_neg hname]
    rcases hl : lookupA tv r.tag_name with _ | raw
    · rfl
    · dsimp only
      rcases hf : raw.float? with _ | v
      · rfl
      · dsimp only
        rw [hla]
        dsimp only
        rw [if_pos hlt]

/-- Claim C7: when the persisted cooldown timestamp of a tag is present and
the elapsed minutes since it are strictly below the rule's
`cooldown_minutes`, the rule emits nothing on that tick (neither limit is
evaluated and nothing is written); consequently, any two ticks within the
cooldown window of each other produce at most one alert in total for that
rule. -/
theorem C7_cooldown_suppression :
    (∀ (now : ℚ) (dev : String) (tv : List (String × TagValue))
        (r : ThresholdRule) (st : Store) (la : ℚ),
      lookupA st.cooldowns ("threshold_cooldown_" ++ r.tag_name) = some la →
      (now - la) / 60 < r.cooldown_minutes →
      processRule now dev tv r st = (st, [], none)) ∧
    (∀ (t1 t2 : ℚ) (dev1 dev2 : String)
        (tv1 tv2 : List (String × TagValue)) (r : ThresholdRule)
        (st : Store),
      (t2 - t1) / 60 < r.cooldown_minutes →
      ((processRule t1 dev1 tv1 r st).2.1 ++
          (processRule t2 dev2 tv2 r
            (processRule t1 dev1 tv1 r st).1).2.1).length ≤ 1) := by
  refine ⟨processRule_cooldown_skip, ?_⟩
  intro t1 t2 dev1 dev2 tv1 tv2 r st hgap
  rcases hp1 : processRule t1 dev1 tv1 r st with ⟨st1, as1, e1⟩
  have hlen := processRule_len_le_one t1 dev1 tv1 r st
  rw [hp1] at hlen
  rcases has1 : as1 with _ | ⟨a, as1t⟩
  · simpa using processRule_len_le_one t2 dev2 tv2 r st1
  · subst has1
    have hcd := processRule_fired_cooldown t1 dev1 tv1 r st st1
      (a :: as1t) e1 hp1 (by simp)
    have hskip := processRule_cooldown_skip t2 dev2 tv2 r st1 t1 hcd hgap
    rw [hskip]
    simpa using hlen

/-- Witness for C7: a cooldown stamped 10 minutes ago against a 15-minute
window suppresses the rule, and two firing-capable ticks 100 seconds apart
yield at most one alert. -/
theorem C7_cooldown_suppression_witness :
    processRule 100 "dev" [("temp", TagValue.number 150)]
        ⟨"temp", some 100, none,
          "{tag} is {value} (threshold: {limit}) on {device}", 15⟩
        ⟨none, none, [("threshold_cooldown_temp", (-500 : ℚ))], [], []⟩ =
      (⟨none, none, [("threshold_cooldown_temp", (-500 : ℚ))], [], []⟩,
        [], none) ∧
    ((processRule 100 "dev" [("temp", TagValue.number 150)]
        ⟨"temp", some 100, none,
          "{tag} is {value} (threshold: {limit}) on {device}", 15⟩
        store0).2.1 ++
      (processRule 200 "dev" [("temp", TagValue.number 150)]
        ⟨"temp", some 100, none,
          "{tag} is {value} (threshold: {limit}) on {device}", 15⟩
        (processRule 100 "dev" [("temp", TagValue.number 150)]
          ⟨"temp", some 100, none,
            "{tag} is {value} (threshold: {limit}) on {device}", 15⟩
          store0).1).2.1).length ≤ 1 :=
  ⟨C7_cooldown_suppression.1 100 "dev" [("temp", TagValue.number 150)]
      ⟨"temp", some 100, none,
        "{tag} is {value} (threshold: {limit}) on {device}", 15⟩
      ⟨none, none, [("threshold_cooldown_temp", (-500 : ℚ))], [], []⟩
      (-500) (by decide) (by norm_num),
   C7_cooldown_suppression.2 100 200 "dev" "dev"
      [("temp", TagValue.number 150)] [("temp", TagValue.number 150)]
      ⟨"temp", some 100, none,
        "{tag} is {value} (threshold: {limit}) on {device}", 15⟩
      store0 (by norm_num)⟩

/-- A threshold rule whose alert template references an unknown
placeholder. -/
def ruleBadTemplate : ThresholdRule :=
  ⟨"t1", some 100, none, "Value {bogus} exceeded", 15⟩

/-- A second, well-formed threshold rule on another tag. -/
def ruleGoodTemplate : ThresholdRule :=
  ⟨"t2", some 100, none, "{tag} high", 15⟩

/-- A tag aggregate on which both rules exceed their upper limits. -/
def tvBoth : List (String × TagValue) :=
  [("t1", TagValue.number 150), ("t2", TagValue.number 150)]

/-- Refutation of claim C2 as stated, at a concrete input: with two
threshold rules whose tag values both exceed their upper limits, a template
`KeyError` in the first rule is not contained — the tick ends with the
error propagating and no alert at all, while running the second rule alone
does emit its alert.  So the error does crash the invocation and the
remaining rules of the tick are affected. -/
theorem C2_counterexample :
    checkRules 0 "dev" tvBoth [ruleBadTemplate, ruleGoodTemplate] store0 =
      (store0, [], some "KeyError: bogus") ∧
    (checkRules 0 "dev" tvBoth [ruleGoodTemplate] store0).2.1 =
      [⟨"t2 high", "Threshold Alert: High Value", "#ff9900"⟩] := by
  constructor <;> rfl

/-- Claim C2 as amended: template substitution against an unknown
placeholder fails with a named `KeyError` and the notification is not sent
and nothing is written for that alert, but the error is NOT caught: it
propagates out of the invocation, and in the threshold loop it aborts the
remaining rules of the tick (the result does not depend on them). -/
theorem C2_template_error_propagates :
    (∀ (cfg : AppConfig) (ch ds dev : String) (now : ℚ) (st : Store)
        (e : String),
      cfg.channel_alerts_enabled = true →
      cfg.slack_webhook_url ≠ "" →
      formatTemplate cfg.channel_message_template
          [("channel", ch), ("data", ds), ("device", dev)] =
        Except.error e →
      on_message_create cfg ch ds dev now st = (st, [], some e)) ∧
    (∀ (now : ℚ) (dev : String) (tv : List (String × TagValue))
        (r : ThresholdRule) (rs : List ThresholdRule) (st : Store)
        (raw : TagValue) (v u : ℚ) (e : String),
      r.tag_name ≠ "" →
      lookupA tv r.tag_name = some raw →
      raw.float? = some v →
      (∀ la, lookupA st.cooldowns ("threshold_cooldown_" ++ r.tag_name) =
        some la → ¬((now - la) / 60 < r.cooldown_minutes)) →
      r.upper_limit = some u →
      u < v →
      formatTemplate r.alert_message
          [("tag", r.tag_name), ("value", pyFloatStr v),
           ("limit", ">" ++ pyNumStr u), ("device", dev)] =
        Except.error e →
      checkRules now dev tv (r :: rs) st = (st, [], some e)) := by
  constructor
  · intro cfg ch ds dev now st e hen hw hfmt
    simp [on_message_create, hen, hw, hfmt]
  · intro now dev tv r rs st raw v u e hname hlook hfloat hcd hu hv hfmt
    have hp : processRule now dev tv r st = (st, [], some e) := by
      have hlim : checkLimits now dev r v st = (st, [], some e) := by
        unfold checkLimits
        rw [hu]
        simp only [if_pos hv, hfmt]
      unfold processRule
      rw [if_neg hname, hlook]
      simp only [hfloat]
      rcases hcdl : lookupA st.cooldowns
          ("threshold_cooldown_" ++ r.tag_name) with _ | la
      · exact hlim
      · dsimp only
        rw [if_neg (hcd la hcdl)]
        exact hlim
    unfold checkRules
    rw [hp]

/-- Witness for the amended C2: the channel-message path with an unknown
placeholder, and the two-rule threshold tick from the counterexample. -/
theorem C2_template_error_propagates_witness :
    on_message_create
        { cfg0 with channel_message_template := "Value {bogus}" }
        "ch" "d" "dev" 0 store0 = (store0, [], some "KeyError: bogus") ∧
    checkRules 7 "dev" tvBoth (ruleBadTemplate :: [ruleGoodTemplate])
        store0 = (store0, [], some "KeyError: bogus") :=
  ⟨C2_template_error_propagates.1
      { cfg0 with channel_message_template := "Value {bogus}" }
      "ch" "d" "dev" 0 store0 "KeyError: bogus" rfl (by decide) rfl,
   C2_template_error_propagates.2 7 "dev" tvBoth ruleBadTemplate
      [ruleGoodTemplate] store0 (TagValue.number 150) 150 100
      "KeyError: bogus" (by decide) rfl rfl (fun la h => nomatch h) rfl
      (by norm_num) rfl⟩
